import Mathlib

/-!
Verification of the encrypted conversational-state subsystem of the
reflection-journal backend: the history optimizer and summarizer
(`backend/app/services/ai.py`), the cipher and per-entity field codec
(`backend/app/services/encryption.py`), the chat-route persistence of the
running summary (`backend/app/routes/chat.py`), and the state-metrics model
(`backend/app/models/state.py`).

Python code is shallowly embedded: message dicts become a `Message`
structure, the service configuration becomes `AIConfig` mirroring
`Settings`/`AIService.__init__`, the Fernet library is abstracted as a
`TokenCipher` carrying the round-trip contract its documentation promises,
and fallible model calls become `Except`-valued function parameters.
-/

namespace Nous

/-- A chat message dict `{"role": ..., "content": ...}` as passed to the
model API and through `_optimize_history`. -/
structure Message where
  role : String
  content : String
deriving DecidableEq, Repr

/-- The fields of `Settings` that `AIService.__init__` copies onto the
service: model names, the context window (`chat_history_limit`), the
refresh threshold (`chat_summarize_after`), and the cheap-model flag. -/
structure AIConfig where
  model : String := "gpt-4o"
  model_cheap : String := "gpt-4o-mini"
  history_limit : Nat := 10
  summarize_after : Nat := 6
  use_cheap_for_summary : Bool := true
deriving DecidableEq, Repr

/-- The default configuration from `config.py` (`chat_history_limit = 10`,
`chat_summarize_after = 6`). -/
def defaultConfig : AIConfig := {}

/-- Python slice `l[-n:]`: the last `n` elements, except that `n = 0` gives
the whole list (`l[-0:]` is `l[0:]`). -/
def pyLastSlice {α : Type} (l : List α) (n : Nat) : List α :=
  if n = 0 then l else l.drop (l.length - n)

/-- Python slice `l[:-n]`: everything but the last `n` elements, except that
`n = 0` gives the empty list (`l[:-0]` is `l[:0]`). -/
def pyDropLastSlice {α : Type} (l : List α) (n : Nat) : List α :=
  if n = 0 then [] else l.take (l.length - n)

/-- The synthetic system message `_optimize_history` prepends when a
standing summary exists: `[Контекст прошлого разговора: {history_summary}]`. -/
def summaryContextMessage (history_summary : String) : Message :=
  { role := "system"
    content := "[Контекст прошлого разговора: " ++ history_summary ++ "]" }

/-- `AIService._optimize_history` (ai.py lines 103-134).

* if `len(history) <= self.history_limit`: return `(history, False)`;
* otherwise `need_new_summary = len(history) > self.summarize_after`,
  the active window is `history[-self.history_limit:]`, and a non-empty
  `history_summary` (Python truthiness: `None` and `""` are falsy) is
  prepended as one system message. -/
def optimize_history (cfg : AIConfig) (history : List Message)
    (history_summary : Option String) : List Message × Bool :=
  if history.length ≤ cfg.history_limit then
    (history, false)
  else
    let need_new_summary : Bool := decide (cfg.summarize_after < history.length)
    let optimized := pyLastSlice history cfg.history_limit
    let optimized :=
      match history_summary with
      | some s => if s = "" then optimized else summaryContextMessage s :: optimized
      | none => optimized
    (optimized, need_new_summary)

end Nous

namespace Nous

/-- Helper: the refresh flag computed by `_optimize_history` is the
conjunction of the two length tests. -/
theorem optimize_history_snd_eq (cfg : AIConfig) (history : List Message)
    (history_summary : Option String) :
    (optimize_history cfg history history_summary).2
      = (decide (cfg.history_limit < history.length)
          && decide (cfg.summarize_after < history.length)) := by
  unfold optimize_history
  split
  · next h =>
    simp [Nat.not_lt.mpr h]
  · next h =>
    simp [Nat.lt_of_not_le h]

/-- **C1 (counterexample).** A history of 7 messages exceeds the refresh
threshold (`chat_summarize_after = 6`) of the default configuration, yet
`_optimize_history` returns `needs_refresh = false`, because the early
return for `len(history) <= chat_history_limit` fires first. -/
theorem C1_refresh_below_window_counterexample :
    defaultConfig.summarize_after < (List.replicate 7 ⟨"user", "привет"⟩ : List Message).length
    ∧ (optimize_history defaultConfig (List.replicate 7 ⟨"user", "привет"⟩) none).2 = false := by
  constructor
  · decide
  · rfl

/-- **C1 (amended).** `_optimize_history` signals `needs_refresh = true`
exactly when the history length exceeds *both* the window size
(`chat_history_limit`) and the refresh threshold (`chat_summarize_after`),
regardless of whether a standing summary was supplied; in particular for
`refresh_threshold < N <= window_size` it returns `needs_refresh = false`. -/
theorem C1_refresh_signal_amended (cfg : AIConfig) (history : List Message)
    (history_summary : Option String) :
    (optimize_history cfg history history_summary).2
      = (decide (cfg.history_limit < history.length)
          && decide (cfg.summarize_after < history.length)) :=
  optimize_history_snd_eq cfg history history_summary

/-- **C5.** For every history and every optional standing summary, the
context returned by `_optimize_history` has length at most
`window_size + 1`: below the window the history is returned whole, above it
the active window of `history_limit` turns gains at most one synthetic
system message. -/
theorem C5_history_bound (cfg : AIConfig) (history : List Message)
    (history_summary : Option String) (hpos : 0 < cfg.history_limit) :
    (optimize_history cfg history history_summary).1.length ≤ cfg.history_limit + 1 := by
  have hne : ¬ cfg.history_limit = 0 := by omega
  unfold optimize_history pyLastSlice
  by_cases h : history.length ≤ cfg.history_limit
  · simp only [if_pos h]
    omega
  · rw [if_neg h]
    cases history_summary with
    | none =>
      simp [hne, List.length_drop]
      omega
    | some s =>
      by_cases hs : s = ""
      · simp [hs, hne, List.length_drop]
        omega
      · simp [hs, hne, List.length_drop]
        omega

/-- **C5 (witness).** With the default configuration (window 10) and a
12-message history plus a standing summary, the returned context has at
most 11 messages. -/
theorem C5_history_bound_witness :
    0 < defaultConfig.history_limit
    ∧ (optimize_history defaultConfig (List.replicate 12 ⟨"user", "привет"⟩)
        (some "старое")).1.length ≤ defaultConfig.history_limit + 1 :=
  ⟨by decide,
    C5_history_bound defaultConfig (List.replicate 12 ⟨"user", "привет"⟩)
      (some "старое") (by decide)⟩

/-- **C6.** Whenever a non-empty standing summary is supplied and the
history is longer than the window, the returned context is exactly the
synthetic system message `[Контекст прошлого разговора: <summary>]` —
role `"system"`, summary text verbatim — followed by the active window of
the last `history_limit` turns. -/
theorem C6_summary_injection (cfg : AIConfig) (history : List Message)
    (s : String) (hs : s ≠ "") (hpos : 0 < cfg.history_limit)
    (hlen : cfg.history_limit < history.length) :
    (optimize_history cfg history (some s)).1
      = summaryContextMessage s :: history.drop (history.length - cfg.history_limit) := by
  unfold optimize_history pyLastSlice
  rw [if_neg (Nat.not_le.mpr hlen), if_neg (by omega : ¬ cfg.history_limit = 0)]
  simp [hs]

/-- **C6 (witness).** With the default configuration, an 11-message history
and the standing summary `"старое"`, the context opens with the synthetic
system message followed by the last 10 turns. -/
theorem C6_summary_injection_witness :
    (optimize_history defaultConfig (List.replicate 11 ⟨"user", "привет"⟩) (some "старое")).1
      = summaryContextMessage "старое"
          :: (List.replicate 11 (⟨"user", "привет"⟩ : Message)).drop 1 :=
  C6_summary_injection defaultConfig (List.replicate 11 ⟨"user", "привет"⟩) "старое"
    (by decide) (by decide) (by decide)

/-- **C10.** `_optimize_history` returns `needs_refresh = true` only if the
history is longer than the window (and than the refresh threshold), so the
evicted tail `history[:-history_limit]` is then non-empty and the
summarizer is never asked to fold in an empty tail. -/
theorem C10_refresh_implies_eviction (cfg : AIConfig) (history : List Message)
    (history_summary : Option String) (hpos : 0 < cfg.history_limit)
    (h : (optimize_history cfg history history_summary).2 = true) :
    cfg.history_limit < history.length
    ∧ cfg.summarize_after < history.length
    ∧ pyDropLastSlice history cfg.history_limit ≠ [] := by
  rw [optimize_history_snd_eq] at h
  simp only [Bool.and_eq_true, decide_eq_true_eq] at h
  obtain ⟨h1, h2⟩ := h
  refine ⟨h1, h2, ?_⟩
  unfold pyDropLastSlice
  rw [if_neg (by omega : ¬ cfg.history_limit = 0)]
  intro hnil
  have := congrArg List.length hnil
  simp [List.length_take] at this
  omega

/-- **C10 (witness).** An 11-message history under the default
configuration triggers a refresh, and the evicted tail (the first message)
is indeed non-empty. -/
theorem C10_refresh_implies_eviction_witness :
    defaultConfig.history_limit < (List.replicate 11 ⟨"user", "привет"⟩ : List Message).length
    ∧ defaultConfig.summarize_after < (List.replicate 11 ⟨"user", "привет"⟩ : List Message).length
    ∧ pyDropLastSlice (List.replicate 11 (⟨"user", "привет"⟩ : Message))
        defaultConfig.history_limit ≠ [] :=
  C10_refresh_implies_eviction defaultConfig (List.replicate 11 ⟨"user", "привет"⟩) none
    (by decide) (by rfl)

/-- The Fernet token layer used by `EncryptionService` (encryption.py):
`enc` is `base64.urlsafe_b64encode(self.cipher.encrypt(data.encode()))`,
`dec` is `urlsafe_b64decode` followed by `self.cipher.decrypt` — `none`
models the exception path (bad base64 or `InvalidToken`). The two proof
fields are the contract the `cryptography` library documents: decrypting a
freshly produced token under the same key returns the plaintext, and a
token is never the empty string. -/
structure TokenCipher where
  enc : String → String
  dec : String → Option String
  dec_enc : ∀ s : String, dec (enc s) = some s
  enc_ne_empty : ∀ s : String, enc s ≠ ""

/-- `EncryptionService.encrypt` (encryption.py lines 32-37): empty input
passes through, otherwise the Fernet token (base64-wrapped) is returned. -/
def encrypt (c : TokenCipher) (data : String) : String :=
  if data = "" then data else c.enc data

/-- `EncryptionService.decrypt` (encryption.py lines 39-49): empty input
passes through; otherwise decode-and-decrypt, and on any exception the
original input is returned (backward compatibility with unencrypted data). -/
def decrypt (c : TokenCipher) (encrypted_data : String) : String :=
  if encrypted_data = "" then encrypted_data
  else
    match c.dec encrypted_data with
    | some decrypted => decrypted
    | none => encrypted_data

/-- A concrete `TokenCipher` instance for witnesses: prepend a marker
character, strip it on decryption, anything else fails to decrypt. -/
def tagCipher : TokenCipher where
  enc s := String.mk ('#' :: s.data)
  dec s :=
    match s.data with
    | '#' :: rest => some (String.mk rest)
    | _ => none
  dec_enc s := by
    cases s
    rfl
  enc_ne_empty s := by
    intro h
    have := congrArg String.data h
    simp at this

/-- Helper: `decrypt` undoes `encrypt` for every string under the same
standing key. -/
theorem decrypt_encrypt (c : TokenCipher) (s : String) :
    decrypt c (encrypt c s) = s := by
  unfold encrypt decrypt
  by_cases hs : s = ""
  · simp [hs]
  · rw [if_neg hs, if_neg (c.enc_ne_empty s), c.dec_enc s]

/-- **C3.** The cipher round-trips: for every string `s`,
`decrypt(encrypt(s)) = s` under the standing key, and the empty string
passes through both operations unchanged. -/
theorem C3_cipher_roundtrip (c : TokenCipher) (s : String) :
    decrypt c (encrypt c s) = s ∧ encrypt c "" = "" ∧ decrypt c "" = "" :=
  ⟨decrypt_encrypt c s, rfl, rfl⟩

/-- **C4.** Fail-open decryption: on any input that does not decrypt under
the current key (the token layer's exception path, `dec = none`), `decrypt`
does not raise and returns the original input unchanged. -/
theorem C4_fail_open_decrypt (c : TokenCipher) (s : String)
    (h : c.dec s = none) : decrypt c s = s := by
  unfold decrypt
  by_cases hs : s = ""
  · simp [hs]
  · rw [if_neg hs, h]

/-- **C4 (witness).** Legacy plaintext `"plain-unencrypted-text"` is not a
valid token of the concrete cipher, and `decrypt` returns it unchanged. -/
theorem C4_fail_open_decrypt_witness :
    tagCipher.dec "plain-unencrypted-text" = none
    ∧ decrypt tagCipher "plain-unencrypted-text" = "plain-unencrypted-text" :=
  ⟨rfl, C4_fail_open_decrypt tagCipher "plain-unencrypted-text" rfl⟩

/-- A chat-message dict as stored inside a session document
(`ChatMessage.model_dump()`): `content` is `none` when the dict carries no
`content` key (the codec's `if 'content' in msg` guard). -/
structure StoredMessage where
  id : String
  role : String
  content : Option String
  created_at : String
deriving DecidableEq, Repr

/-- A chat-session document (`ChatSession.model_dump()`, possibly extended
with the `history_summary` field the chat route `$set`s): `none` on
`title`/`messages`/`history_summary` models an absent key, matching the
codec's `if 'title' in ...` / `if 'messages' in ...` guards. -/
structure StoredSession where
  id : String
  user_id : String
  title : Option String
  messages : Option (List StoredMessage)
  history_summary : Option String
  created_at : String
  updated_at : String
deriving DecidableEq, Repr

/-- The per-message step of `encrypt_chat_session`:
`{**msg, 'content': self.encrypt(msg['content'])} if 'content' in msg else msg`. -/
def encrypt_message_content (c : TokenCipher) (m : StoredMessage) : StoredMessage :=
  { m with content := m.content.map (encrypt c) }

/-- The per-message step of `decrypt_chat_session`. -/
def decrypt_message_content (c : TokenCipher) (m : StoredMessage) : StoredMessage :=
  { m with content := m.content.map (decrypt c) }

/-- `EncryptionService.encrypt_chat_session` (encryption.py lines 115-125):
encrypts `title` when the key is present, and each message's `content` when
`messages` is present and non-empty (Python truthiness); every other field
— including `history_summary` — is left untouched. -/
def encrypt_chat_session (c : TokenCipher) (sess : StoredSession) : StoredSession :=
  { sess with
    title := sess.title.map (encrypt c)
    messages := sess.messages.map (fun msgs =>
      if msgs = [] then msgs else msgs.map (encrypt_message_content c)) }

/-- `EncryptionService.decrypt_chat_session` (encryption.py lines 127-137). -/
def decrypt_chat_session (c : TokenCipher) (sess : StoredSession) : StoredSession :=
  { sess with
    title := sess.title.map (decrypt c)
    messages := sess.messages.map (fun msgs =>
      if msgs = [] then msgs else msgs.map (decrypt_message_content c)) }

/-- A concrete stored chat session carrying a running summary. -/
def sampleStoredSession : StoredSession :=
  { id := "s1"
    user_id := "u1"
    title := some "Новый диалог"
    messages := some [{ id := "m1", role := "user", content := some "привет", created_at := "t1" }]
    history_summary := some "секрет"
    created_at := "t0"
    updated_at := "t2" }

/-- **C2 (counterexample).** `encrypt_chat_session` does *not* apply the
cipher to the running summary: on a session whose `history_summary` is
`"секрет"`, the field comes back verbatim, although the cipher would have
changed it. -/
theorem C2_history_summary_not_encrypted_counterexample :
    (encrypt_chat_session tagCipher sampleStoredSession).history_summary = some "секрет"
    ∧ encrypt tagCipher "секрет" ≠ "секрет" := by
  refine ⟨rfl, ?_⟩
  intro h
  have := congrArg String.data h
  simp [encrypt, tagCipher] at this

/-- **C2 (amended).** `encrypt_chat_session` applies the cipher to the
session title (when the key is present) and to every turn's `content`,
leaving structure and every non-sensitive field — and also
`history_summary`, which the chat route encrypts separately before
persisting — untouched; `decrypt_chat_session` is its exact inverse. -/
theorem C2_session_codec_amended (c : TokenCipher) (sess : StoredSession) :
    decrypt_chat_session c (encrypt_chat_session c sess) = sess
    ∧ (encrypt_chat_session c sess).title = sess.title.map (encrypt c)
    ∧ (encrypt_chat_session c sess).messages.map (List.map StoredMessage.content)
        = sess.messages.map (List.map (fun m => m.content.map (encrypt c)))
    ∧ (encrypt_chat_session c sess).messages.map (List.map StoredMessage.role)
        = sess.messages.map (List.map StoredMessage.role)
    ∧ (encrypt_chat_session c sess).history_summary = sess.history_summary
    ∧ (encrypt_chat_session c sess).user_id = sess.user_id := by
  obtain ⟨sid, uid, title, messages, hsum, cat, uat⟩ := sess
  refine ⟨?_, rfl, ?_, ?_, rfl, rfl⟩
  · simp only [encrypt_chat_session, decrypt_chat_session]
    congr 1
    · cases title with
      | none => rfl
      | some t => simp [decrypt_encrypt]
    · cases messages with
      | none => rfl
      | some msgs =>
        by_cases hm : msgs = []
        · subst hm
          rfl
        · simp only [Option.map_some', if_neg hm,
            if_neg (by simpa using hm : ¬ msgs.map (encrypt_message_content c) = []),
            Option.some.injEq, List.map_map]
          refine (List.map_congr_left ?_).trans (List.map_id msgs)
          intro m _
          cases m with
          | mk mid mrole mcontent mcreated =>
            cases mcontent with
            | none => rfl
            | some cont =>
              simp [encrypt_message_content, decrypt_message_content, decrypt_encrypt]
  · simp only [encrypt_chat_session]
    cases messages with
    | none => rfl
    | some msgs =>
      by_cases hm : msgs = []
      · subst hm
        rfl
      · simp only [Option.map_some', if_neg hm, List.map_map]
        rfl
  · simp only [encrypt_chat_session]
    cases messages with
    | none => rfl
    | some msgs =>
      by_cases hm : msgs = []
      · subst hm
        rfl
      · simp only [Option.map_some', if_neg hm, List.map_map]
        rfl

/-- The character `{` (written by code point to keep it out of string
literals). -/
def braceOpen : Char := Char.ofNat 123

/-- The character `}` (written by code point). -/
def braceClose : Char := Char.ofNat 125

/-- Python `str.find` restricted to a single character: index of the first
occurrence, `-1` if absent. -/
def pyFindChar (s : String) (c : Char) : Int :=
  match s.data.findIdx? (· = c) with
  | some i => (i : Int)
  | none => -1

/-- Python `str.rfind` restricted to a single character: index of the last
occurrence, `-1` if absent. -/
def pyRfindChar (s : String) (c : Char) : Int :=
  match s.data.reverse.findIdx? (· = c) with
  | some i => ((s.data.length - 1 - i : Nat) : Int)
  | none => -1

/-- Python slicing `s[a:b]` for `0 <= a <= b` (clamped at the end of the
string, as in Python). -/
def pySlice (s : String) (a b : Nat) : String :=
  String.mk ((s.data.drop a).take (b - a))

/-- `AIService._parse_json_response` (ai.py lines 332-341):
`json_start = response.find(LBRACE)`, `json_end = response.rfind(RBRACE) + 1`;
if `json_start != -1 and json_end > json_start` the slice is handed to
`json.loads` — abstracted as `loads`, returning `none` on the
`JSONDecodeError` the source catches — and otherwise `None` is returned. -/
def parse_json_response {α : Type} (loads : String → Option α)
    (response : String) : Option α :=
  let json_start := pyFindChar response braceOpen
  let json_end := pyRfindChar response braceClose + 1
  if json_start ≠ -1 ∧ json_start < json_end then
    loads (pySlice response json_start.toNat json_end.toNat)
  else
    none

/-- Index of the last occurrence of a character, when there is one. -/
def lastCharIdx? (s : String) (c : Char) : Option Nat :=
  match s.data.reverse.findIdx? (· = c) with
  | some i => some (s.data.length - 1 - i)
  | none => none

/-- The spec's wording of the extraction, as a second definition to compare
with the source: locate the first opening brace and the last closing brace;
if both exist and form a pair (the closing one not before the opening one)
parse that substring, report "no result" whenever the braces are missing or
parsing fails. -/
def extract_json_spec {α : Type} (loads : String → Option α)
    (text : String) : Option α :=
  match text.data.findIdx? (· = braceOpen), lastCharIdx? text braceClose with
  | some i, some j => if i ≤ j then loads (pySlice text i (j + 1)) else none
  | some _, none => none
  | none, _ => none

/-- **C8.** `_parse_json_response` implements exactly the spec's
first-brace/last-brace extraction: it parses the substring from the first
`openBrace` to the last `closeBrace` when such a pair exists, and returns
`none` — never an exception — when either brace is missing, the braces are
in the wrong order, or `json.loads` fails. -/
theorem C8_parse_json_extraction {α : Type} (loads : String → Option α)
    (response : String) :
    parse_json_response loads response = extract_json_spec loads response := by
  simp only [parse_json_response, extract_json_spec, pyFindChar, pyRfindChar, lastCharIdx?]
  cases h1 : response.data.findIdx? (· = braceOpen) with
  | none => simp
  | some i =>
    cases h2 : response.data.reverse.findIdx? (· = braceClose) with
    | none => simp
    | some k =>
      simp only []
      by_cases hij : i ≤ response.data.length - 1 - k
      · rw [if_pos ⟨by omega, by omega⟩, if_pos hij,
          show ((i : Int)).toNat = i by omega,
          show (((response.data.length - 1 - k : Nat) : Int) + 1).toNat
            = (response.data.length - 1 - k) + 1 by omega]
      · rw [if_neg (by omega), if_neg hij]

/-- `StateMetrics` (models/state.py lines 9-22): ten psychophysiological
metrics, each with pydantic default `5.0`. The values are modelled as
rationals, since only exact literals occur in the claims. -/
structure StateMetrics where
  dopamine : ℚ := 5
  serotonin : ℚ := 5
  gaba : ℚ := 5
  noradrenaline : ℚ := 5
  cortisol : ℚ := 5
  testosterone : ℚ := 5
  pfc_activity : ℚ := 5
  focus : ℚ := 5
  energy : ℚ := 5
  motivation : ℚ := 5
deriving DecidableEq, Repr

/-- The parsed `"metrics"` JSON object of a successful state analysis:
each of the ten keys is either supplied or absent. -/
structure PartialStateMetrics where
  dopamine : Option ℚ := none
  serotonin : Option ℚ := none
  gaba : Option ℚ := none
  noradrenaline : Option ℚ := none
  cortisol : Option ℚ := none
  testosterone : Option ℚ := none
  pfc_activity : Option ℚ := none
  focus : Option ℚ := none
  energy : Option ℚ := none
  motivation : Option ℚ := none
deriving DecidableEq, Repr

/-- `StateMetrics(**state_data.get("metrics", {}))` (routes/state.py line 77,
routes/chat.py line 81): pydantic keeps every supplied key and applies the
field default `5.0` to every missing one. -/
def mkStateMetrics (p : PartialStateMetrics) : StateMetrics where
  dopamine := p.dopamine.getD 5
  serotonin := p.serotonin.getD 5
  gaba := p.gaba.getD 5
  noradrenaline := p.noradrenaline.getD 5
  cortisol := p.cortisol.getD 5
  testosterone := p.testosterone.getD 5
  pfc_activity := p.pfc_activity.getD 5
  focus := p.focus.getD 5
  energy := p.energy.getD 5
  motivation := p.motivation.getD 5

/-- **C9.** Constructing `StateMetrics` from a partially supplied metrics
object keeps each supplied value and defaults every missing metric to 5.0;
in particular `{"metrics": {"dopamine": 8}, "analysis": "ok"}` yields
`dopamine = 8` and the other nine metrics `= 5.0`. -/
theorem C9_state_metric_defaulting (p : PartialStateMetrics) :
    (mkStateMetrics p).dopamine = p.dopamine.getD 5
    ∧ (mkStateMetrics p).serotonin = p.serotonin.getD 5
    ∧ (mkStateMetrics p).gaba = p.gaba.getD 5
    ∧ (mkStateMetrics p).noradrenaline = p.noradrenaline.getD 5
    ∧ (mkStateMetrics p).cortisol = p.cortisol.getD 5
    ∧ (mkStateMetrics p).testosterone = p.testosterone.getD 5
    ∧ (mkStateMetrics p).pfc_activity = p.pfc_activity.getD 5
    ∧ (mkStateMetrics p).focus = p.focus.getD 5
    ∧ (mkStateMetrics p).energy = p.energy.getD 5
    ∧ (mkStateMetrics p).motivation = p.motivation.getD 5
    ∧ mkStateMetrics { dopamine := some 8 }
        = { dopamine := 8, serotonin := 5, gaba := 5, noradrenaline := 5,
            cortisol := 5, testosterone := 5, pfc_activity := 5, focus := 5,
            energy := 5, motivation := 5 } :=
  ⟨rfl, rfl, rfl, rfl, rfl, rfl, rfl, rfl, rfl, rfl, rfl⟩

/-- `HISTORY_SUMMARY_PROMPT` (ai.py line 22). -/
def HISTORY_SUMMARY_PROMPT : String :=
  "Сожми предыдущий контекст диалога в 2-3 предложения, сохраняя ключевые факты о пользователе и темы обсуждения. Отвечай только саммари, без вступлений."

/-- `REFLECTION_SYSTEM_PROMPT` (ai.py lines 15-19). -/
def REFLECTION_SYSTEM_PROMPT : String :=
  "Ты - помощник для рефлексии и самоанализа. Помогай пользователю размышлять о своих мыслях, чувствах и опыте. Отвечай на русском языке, будь эмпатичным и поддерживающим. Задавай наводящие вопросы для глубокой рефлексии. Будь кратким но содержательным.\n\nЕсли пользователь спрашивает что делать или просит задачи - можешь предложить добавить их в чеклист. В этом случае добавь в конце ответа специальный маркер [SUGGEST_CHECKLIST] чтобы система предложила пользователю создать чеклист.\n\nЕсли пользователь просит оценить состояние - можешь проанализировать его нейромедиаторы."

/-- One line of the text handed to the summarizer (ai.py lines 142-145):
`f"LABEL: CONTENT"` with the label chosen by role. -/
def renderHistoryLine (m : Message) : String :=
  (if m.role = "user" then "Пользователь" else "Ассистент") ++ ": " ++ m.content

/-- `AIService._summarize_history` (ai.py lines 136-164): join the history
into labelled lines, keep only the last 2000 characters, call the
configured (cheap) model with the summary prompt, and on any exception
return the empty string. The model call is abstracted as
`completion model messages`, with `Except.error` standing for a raised
exception. -/
def summarize_history (cfg : AIConfig)
    (completion : String → List Message → Except String String)
    (history : List Message) : String :=
  let text := String.intercalate "\n" (history.map renderHistoryLine)
  let text := if 2000 < text.length then String.mk (pyLastSlice text.data 2000) else text
  let messages : List Message :=
    [{ role := "system", content := HISTORY_SUMMARY_PROMPT },
     { role := "user", content := text }]
  let model := if cfg.use_cheap_for_summary then cfg.model_cheap else cfg.model
  match completion model messages with
  | Except.ok summary => summary
  | Except.error _ => ""

/-- The dict returned by `AIService.get_reflection_response` (ai.py
lines 272-277). -/
structure ReflectionResult where
  response : String
  suggest_checklist : Bool
  history_summary : Option String
  need_summary_update : Bool
deriving DecidableEq, Repr

/-- Python `a or b` on optional strings: `None` and `""` are falsy. -/
def pyOrStr (a b : Option String) : Option String :=
  match a with
  | some s => if s = "" then b else some s
  | none => b

/-- Python `sub in s` for strings, via non-overlapping occurrence count. -/
def pyInStr (sub s : String) : Bool :=
  decide (1 < (s.splitOn sub).length)

/-- The `new_summary` computation of `get_reflection_response` (ai.py
lines 248-253): only when a refresh is due and the history exceeds the
threshold, summarize the evicted `history[:-history_limit]`, and only when
that tail is non-empty. -/
def compute_new_summary (cfg : AIConfig)
    (completion : String → List Message → Except String String)
    (history : List Message) (need_summary_update : Bool) : Option String :=
  if need_summary_update && decide (cfg.summarize_after < history.length) then
    let old_messages := pyDropLastSlice history cfg.history_limit
    if old_messages ≠ [] then some (summarize_history cfg completion old_messages)
    else none
  else none

/-- `AIService.get_reflection_response` (ai.py lines 227-277): optimize the
history, maybe refresh the summary, build the prompt, call the model
(`Except.error` models the raised exception propagating to the caller),
strip the checklist marker, and return the result dict whose
`history_summary` is `new_summary or history_summary`. -/
def get_reflection_response (cfg : AIConfig)
    (completion : String → List Message → Except String String)
    (message : String) (history : List Message)
    (history_summary : Option String) : Except String ReflectionResult :=
  let opt := optimize_history cfg history history_summary
  let optimized_history := opt.1
  let need_summary_update := opt.2
  let new_summary := compute_new_summary cfg completion history need_summary_update
  let messages := { role := "system", content := REFLECTION_SYSTEM_PROMPT : Message }
      :: optimized_history ++ [{ role := "user", content := message }]
  match completion cfg.model messages with
  | Except.error e => Except.error e
  | Except.ok response =>
      Except.ok
        { response := (response.replace "[SUGGEST_CHECKLIST]" "").trim
          suggest_checklist := pyInStr "[SUGGEST_CHECKLIST]" response
          history_summary := pyOrStr new_summary history_summary
          need_summary_update := need_summary_update }

/-- **C7.** When every summarization model call fails (any call whose
system prompt is the summary prompt raises), `_summarize_history` returns
the empty string instead of raising, and `get_reflection_response` — when
the turn itself completes — carries the previously supplied standing
summary unchanged in its `history_summary` field. -/
theorem C7_summarizer_failure_degrades (cfg : AIConfig)
    (completion : String → List Message → Except String String)
    (message : String) (history : List Message) (history_summary : Option String)
    (e : String)
    (hfail : ∀ model msgs, (msgs.map Message.content).head? = some HISTORY_SUMMARY_PROMPT →
        completion model msgs = Except.error e) :
    summarize_history cfg completion (pyDropLastSlice history cfg.history_limit) = ""
    ∧ (get_reflection_response cfg completion message history history_summary).map
        ReflectionResult.history_summary
      = (get_reflection_response cfg completion message history history_summary).map
        (fun _ => history_summary) := by
  have hcall : ∀ model text : String,
      completion model [{ role := "system", content := HISTORY_SUMMARY_PROMPT },
        { role := "user", content := text }] = Except.error e :=
    fun model text => hfail model _ rfl
  have hsum : ∀ old : List Message, summarize_history cfg completion old = "" := by
    intro old
    simp only [summarize_history]
    rw [hcall]
  have hOr : ∀ b : Bool,
      pyOrStr (compute_new_summary cfg completion history b) history_summary
        = history_summary := by
    intro b
    simp only [compute_new_summary]
    by_cases h1 : (b && decide (cfg.summarize_after < history.length)) = true
    · rw [if_pos h1]
      by_cases h2 : pyDropLastSlice history cfg.history_limit ≠ []
      · simp only [if_pos h2, hsum]
        rfl
      · simp only [if_neg h2]
        rfl
    · rw [if_neg h1]
      rfl
  refine ⟨hsum _, ?_⟩
  simp only [get_reflection_response, hOr]
  cases completion cfg.model
      ({ role := "system", content := REFLECTION_SYSTEM_PROMPT : Message }
        :: (optimize_history cfg history history_summary).1
        ++ [{ role := "user", content := message }]) with
  | error e' => rfl
  | ok response => rfl

/-- A concrete completion function for the witness: calls carrying the
summary prompt fail, everything else answers. -/
def failingSummaryCompletion : String → List Message → Except String String :=
  fun _model msgs =>
    if (msgs.map Message.content).head? = some HISTORY_SUMMARY_PROMPT then
      Except.error "таймаут"
    else
      Except.ok "Хорошо"

/-- **C7 (witness).** With the default configuration, an 11-message
history, standing summary `"старое"` and a completion whose summarization
calls fail, the summarizer yields `""` and the turn keeps `"старое"`. -/
theorem C7_summarizer_failure_degrades_witness :
    summarize_history defaultConfig failingSummaryCompletion
        (pyDropLastSlice (List.replicate 11 (⟨"user", "привет"⟩ : Message))
          defaultConfig.history_limit) = ""
    ∧ (get_reflection_response defaultConfig failingSummaryCompletion "вопрос"
         (List.replicate 11 ⟨"user", "привет"⟩) (some "старое")).map
        ReflectionResult.history_summary
      = (get_reflection_response defaultConfig failingSummaryCompletion "вопрос"
         (List.replicate 11 ⟨"user", "привет"⟩) (some "старое")).map
        (fun _ => some "старое") :=
  C7_summarizer_failure_degrades defaultConfig failingSummaryCompletion "вопрос"
    (List.replicate 11 ⟨"user", "привет"⟩) (some "старое") "таймаут"
    (fun _model msgs h => by simp only [failingSummaryCompletion, if_pos h])

end Nous
